import Mathlib

/-!
Verification of `mcp-proxy` (punkpeye/mcp-proxy).

Shallow embedding of the TypeScript sources:
  * `src/authentication.ts` — `AuthenticationMiddleware` (`getUnauthorizedResponse`,
    `validateRequest`);
  * `src/MCPProxy.ts` — `tapTransport`, `proxyServer`, and the request handler and
    teardown callback of `startSSEServer`;
  * the in-memory `EventLog` of the spec (its code is not among the given sources;
    it is modelled from the spec where noted).

JavaScript-specific semantics is made explicit: string truthiness (`""` is falsy,
`a || b` takes `a` only when it is defined and non-empty), optional chaining on
possibly-absent objects, and Node's lowercasing of incoming header names.
-/

namespace Spec2Proof

/-- JS truthiness of an optional string: `undefined` and `""` are falsy. -/
def jsTruthy (s : Option String) : Bool :=
  match s with
  | none => false
  | some v => v ≠ ""

/-- JS `a || b` where `b` is a string literal: `a` when defined and non-empty, else `b`. -/
def jsOr (a : Option String) (b : String) : String :=
  match a with
  | some v => if v = "" then b else v
  | none => b

/-- JS `a || b` where both sides may be `undefined`. -/
def jsOrO (a b : Option String) : Option String :=
  if jsTruthy a then a else b

/-- `AuthConfig.oauth.protectedResource` from `src/authentication.ts`. -/
structure ProtectedResource where
  resource : Option String := none
  deriving DecidableEq

/-- `AuthConfig.oauth` from `src/authentication.ts`. -/
structure OAuthConfig where
  error : Option String := none
  error_description : Option String := none
  error_uri : Option String := none
  protectedResource : Option ProtectedResource := none
  realm : Option String := none
  scope : Option String := none
  deriving DecidableEq

/-- `AuthConfig` from `src/authentication.ts`. -/
structure AuthConfig where
  apiKey : Option String := none
  oauth : Option OAuthConfig := none
  deriving DecidableEq

/-- The `options` argument of `getUnauthorizedResponse`. -/
structure UnauthorizedOptions where
  error : Option String := none
  error_description : Option String := none
  error_uri : Option String := none
  scope : Option String := none
  deriving DecidableEq

/-- The JSON body `{error: {code, message}, id: null, jsonrpc: "2.0"}` of
`getUnauthorizedResponse`, kept structurally (the `id`/`jsonrpc` fields are the
constants `null` and `"2.0"` and carry no information). -/
structure JsonRpcErrorBody where
  code : Nat
  message : String
  deriving DecidableEq

/-- Return value of `getUnauthorizedResponse`: body and headers. -/
structure UnauthorizedResponse where
  body : JsonRpcErrorBody
  headers : List (String × String)
  deriving DecidableEq

/-- `error_description.replace(/"/g, '\\"')` from `src/authentication.ts`. -/
def escapeQuotes (s : String) : String :=
  s.replace "\"" "\\\""

/-- The `params` array built inside `getUnauthorizedResponse`
(`src/authentication.ts`, lines 32–64), as the concatenation of the pushes in
source order: `realm` and `resource_metadata` when configured and non-empty,
`error` and `error_description` unconditionally (per-call override, else static
configuration, else default), `error_uri` and `scope` when the effective value
is non-empty. -/
def oauthParams (oauth : OAuthConfig) (options : UnauthorizedOptions) : List String :=
  (if jsTruthy oauth.realm then
      ["realm=\"" ++ oauth.realm.getD "" ++ "\""]
    else []) ++
  (if jsTruthy (oauth.protectedResource.bind ProtectedResource.resource) then
      ["resource_metadata=\"" ++ (oauth.protectedResource.bind ProtectedResource.resource).getD ""
        ++ "/.well-known/oauth-protected-resource\""]
    else []) ++
  ["error=\"" ++ jsOr options.error (jsOr oauth.error "invalid_token") ++ "\""] ++
  ["error_description=\""
    ++ escapeQuotes (jsOr options.error_description
        (jsOr oauth.error_description "Unauthorized: Invalid or missing API key"))
    ++ "\""] ++
  (if jsTruthy (jsOrO options.error_uri oauth.error_uri) then
      ["error_uri=\"" ++ (jsOrO options.error_uri oauth.error_uri).getD "" ++ "\""]
    else []) ++
  (if jsTruthy (jsOrO options.scope oauth.scope) then
      ["scope=\"" ++ (jsOrO options.scope oauth.scope).getD "" ++ "\""]
    else [])

/-- `AuthenticationMiddleware.getUnauthorizedResponse` (`src/authentication.ts`,
lines 20–82). The body's `message` is `options?.error_description || <default>`;
the `WWW-Authenticate` header is added when an OAuth descriptor is configured and
the parameter list is non-empty. -/
def getUnauthorizedResponse (config : AuthConfig) (options : UnauthorizedOptions) :
    UnauthorizedResponse :=
  let headers : List (String × String) := [("Content-Type", "application/json")]
  let headers :=
    match config.oauth with
    | none => headers
    | some oauth =>
      let params := oauthParams oauth options
      if params.length > 0 then
        headers ++ [("WWW-Authenticate", "Bearer " ++ String.intercalate ", " params)]
      else headers
  { body :=
      { code := 401
        message := jsOr options.error_description "Unauthorized: Invalid or missing API key" }
    headers := headers }

/-- A value of Node's `req.headers` map: a single string or an array of strings. -/
inductive HeaderValue where
  | str (s : String)
  | strs (l : List String)
  deriving DecidableEq

/-- The part of Node's `IncomingMessage` that `validateRequest` reads: the header
list, names as sent by the client. -/
structure IncomingMessage where
  headers : List (String × HeaderValue)
  deriving DecidableEq

/-- `req.headers[name]` for a lowercase `name`: Node lowercases incoming header
names, so the lookup matches the sent name case-insensitively. -/
def getHeader (req : IncomingMessage) (name : String) : Option HeaderValue :=
  (req.headers.find? (fun p => p.1.toLower = name)).map Prod.snd

/-- `AuthenticationMiddleware.validateRequest` (`src/authentication.ts`, lines
84–99): true when no API key is configured (absent or empty, both falsy);
otherwise the `x-api-key` header must be a single non-empty string strictly
equal to the configured key. -/
def validateRequest (config : AuthConfig) (req : IncomingMessage) : Bool :=
  if !(jsTruthy config.apiKey) then true
  else
    match getHeader req "x-api-key" with
    | none => false
    | some (HeaderValue.strs _) => false
    | some (HeaderValue.str s) => if s = "" then false else s = config.apiKey.getD ""

/-- C1 (counterexample): with `oauth.error_description` statically configured and
no per-call override, the body's `error.message` is the generic default, not the
configured description — the claim's "otherwise the statically configured
oauth.error_description" step does not happen for the body. -/
theorem authBody_ignores_configured_description :
    (getUnauthorizedResponse
        { oauth := some { error_description := some "Configured description" } }
        {}).body.message
      = "Unauthorized: Invalid or missing API key" ∧
    ("Unauthorized: Invalid or missing API key" : String) ≠ "Configured description" := by
  exact ⟨rfl, by decide⟩

/-- C1 (amended): the body's `error.message` equals the per-call override when one
is given and non-empty, otherwise the generic default; the static configuration —
in particular `oauth.error_description` — never influences the body (it only
affects the `WWW-Authenticate` header). -/
theorem authBody_message_overrides_only (config config2 : AuthConfig)
    (options : UnauthorizedOptions) :
    (getUnauthorizedResponse config options).body.message
        = (getUnauthorizedResponse config2 options).body.message ∧
    (getUnauthorizedResponse config options).body.message
        = (match options.error_description with
           | some d => if d = "" then "Unauthorized: Invalid or missing API key" else d
           | none => "Unauthorized: Invalid or missing API key") := by
  constructor
  · rfl
  · show jsOr options.error_description "Unauthorized: Invalid or missing API key" = _
    cases options.error_description with
    | none => rfl
    | some d => rfl

/-- C2 (counterexample): for the configured (empty-string) API key,
`validateRequest` accepts a request that carries no `x-api-key` header at all,
so "returns true iff the request carries a matching single-valued header" fails
as stated for every configured key. -/
theorem validateRequest_not_iff_for_empty_key :
    ¬ (validateRequest { apiKey := some "" } { headers := [] } = true ↔
        getHeader { headers := [] } "x-api-key" = some (HeaderValue.str "")) := by
  decide

/-- C2 (amended): for every non-empty configured API key, `validateRequest` is
true iff the request has a single-valued `x-api-key` header (name matched
case-insensitively) exactly equal to the key; a multi-valued occurrence is
invalid regardless of its values (it is never `HeaderValue.str key`). -/
theorem validateRequest_iff_header_matches (key : String) (hk : key ≠ "")
    (req : IncomingMessage) :
    validateRequest { apiKey := some key } req = true ↔
      getHeader req "x-api-key" = some (HeaderValue.str key) := by
  have ht : jsTruthy (some key) = true := by simpa [jsTruthy] using hk
  unfold validateRequest
  simp only [ht, Bool.not_true, Bool.false_eq_true, if_false]
  cases h : getHeader req "x-api-key" with
  | none => simp
  | some v =>
    cases v with
    | strs l => simp
    | str s =>
      by_cases hs : s = ""
      · subst hs
        simp [Ne.symm hk]
      · simp [hs]

/-- Witness for C2 (amended) at the key `"secret-key"` and a request whose header
name is sent in mixed case. -/
theorem validateRequest_iff_header_matches_witness :
    (("secret-key" : String) ≠ "") ∧
    (validateRequest { apiKey := some "secret-key" }
        { headers := [("X-Api-Key", HeaderValue.str "secret-key")] } = true ↔
      getHeader { headers := [("X-Api-Key", HeaderValue.str "secret-key")] } "x-api-key"
        = some (HeaderValue.str "secret-key")) :=
  ⟨by decide, validateRequest_iff_header_matches "secret-key" (by decide) _⟩

/-- C9: an empty-string configured API key is falsy in the guard
`if (!this.config.apiKey)`, so `validateRequest` returns true for every request,
including one with no `x-api-key` header — the empty key disables
authentication. -/
theorem validateRequest_empty_key_allows_all (req : IncomingMessage) :
    validateRequest { apiKey := some "" } req = true := by
  rfl

/-- C10: whenever an OAuth descriptor is configured (any value, including the
empty object), the parameter list always contains an `error` and an
`error_description` parameter, hence is non-empty, and the response carries the
`WWW-Authenticate` header built from it — the empty-parameter guard is never
taken. -/
theorem unauthorized_response_always_challenges (config : AuthConfig)
    (oauth : OAuthConfig) (hc : config.oauth = some oauth)
    (options : UnauthorizedOptions) :
    (∃ e, ("error=\"" ++ e ++ "\"") ∈ oauthParams oauth options) ∧
    (∃ d, ("error_description=\"" ++ d ++ "\"") ∈ oauthParams oauth options) ∧
    ("WWW-Authenticate", "Bearer " ++ String.intercalate ", " (oauthParams oauth options))
      ∈ (getUnauthorizedResponse config options).headers := by
  refine ⟨⟨jsOr options.error (jsOr oauth.error "invalid_token"), ?_⟩,
    ⟨escapeQuotes (jsOr options.error_description
        (jsOr oauth.error_description "Unauthorized: Invalid or missing API key")), ?_⟩, ?_⟩
  · simp [oauthParams]
  · simp [oauthParams]
  · have hlen : (oauthParams oauth options).length > 0 := by
      simp [oauthParams]
    show _ ∈ (getUnauthorizedResponse config options).headers
    unfold getUnauthorizedResponse
    rw [hc]
    simp only [hlen, if_pos]
    simp

/-- Witness for C10 at the minimal configuration: the OAuth descriptor is the
empty object and no overrides are given. -/
theorem unauthorized_response_always_challenges_witness :
    (∃ e, ("error=\"" ++ e ++ "\"") ∈ oauthParams {} {}) ∧
    (∃ d, ("error_description=\"" ++ d ++ "\"") ∈ oauthParams {} {}) ∧
    ("WWW-Authenticate", "Bearer " ++ String.intercalate ", " (oauthParams {} {}))
      ∈ (getUnauthorizedResponse { oauth := some {} } {}).headers :=
  unauthorized_response_always_challenges { oauth := some {} } {} rfl {}

/-! ## `tapTransport` (`src/MCPProxy.ts`, lines 20–106) -/

/-- The side-channel events of `tapTransport` (`TransportEvent`,
`src/MCPProxy.ts`, lines 20–41). -/
inductive TransportEvent (M E : Type) where
  | close
  | onclose
  | onerror (error : E)
  | onmessage (message : M)
  | send (message : M)
  | start
  deriving DecidableEq

/-- One observable step during a transport operation: an opaque base effect of
the underlying transport, or an invocation of the tap's `eventHandler` with the
given event. -/
inductive Action (M E B : Type) where
  | base (b : B)
  | tap (e : TransportEvent M E)
  deriving DecidableEq

/-- An SDK `Transport` object as `tapTransport` manipulates it: an object
identity (JS reference), the three required methods `close`/`send`/`start`, and
the three optional handler slots `onclose`/`onerror`/`onmessage`. Each
operation's behavior is the trace of steps one invocation performs plus its
result; a handler slot's result is optional because `original?.()` evaluates to
`undefined` when the slot is unset. -/
structure TransportObj (M E B R : Type) where
  oid : Nat
  close : List (Action M E B) × R
  onclose : Option (List (Action M E B) × Option R)
  onerror : Option (E → List (Action M E B) × Option R)
  onmessage : Option (M → List (Action M E B) × Option R)
  send : M → List (Action M E B) × R
  start : List (Action M E B) × R

/-- `tapTransport` (`src/MCPProxy.ts`, lines 43–106). The source binds the six
original operations, overwrites each slot of the SAME transport object with a
function that calls `eventHandler` with the corresponding event and then
delegates to the bound original (`return original?.(...)`), and returns the
mutated object itself. In the embedding the `eventHandler` invocation is
recorded as an `Action.tap` step at the head of the trace, and the in-place
mutation is rendered as a record update preserving the object identity
`oid`. -/
def tapTransport (t : TransportObj M E B R) : TransportObj M E B R :=
  { oid := t.oid
    close := (Action.tap TransportEvent.close :: t.close.1, t.close.2)
    onclose := some (match t.onclose with
      | some f => (Action.tap TransportEvent.onclose :: f.1, f.2)
      | none => ([Action.tap TransportEvent.onclose], none))
    onerror := some (fun e => match t.onerror with
      | some f => (Action.tap (TransportEvent.onerror e) :: (f e).1, (f e).2)
      | none => ([Action.tap (TransportEvent.onerror e)], none))
    onmessage := some (fun m => match t.onmessage with
      | some f => (Action.tap (TransportEvent.onmessage m) :: (f m).1, (f m).2)
      | none => ([Action.tap (TransportEvent.onmessage m)], none))
    send := fun m => (Action.tap (TransportEvent.send m) :: (t.send m).1, (t.send m).2)
    start := (Action.tap TransportEvent.start :: t.start.1, t.start.2) }

/-- The base effects of a trace, in order, with tap events erased: the behavior
observable by everything except the tap's event handler. -/
def baseActions : List (Action M E B) → List B
  | [] => []
  | Action.base b :: tr => b :: baseActions tr
  | Action.tap _ :: tr => baseActions tr

/-- The tap events of a trace, in order. -/
def tapEvents : List (Action M E B) → List (TransportEvent M E)
  | [] => []
  | Action.base _ :: tr => tapEvents tr
  | Action.tap e :: tr => e :: tapEvents tr

/-- Delivery of an inbound message to a transport's `onmessage` slot
(`transport.onmessage?.(message)` in the runtime): no-op when unset. -/
def invokeOnMessage (t : TransportObj M E B R) (m : M) : List (Action M E B) × Option R :=
  match t.onmessage with
  | some f => f m
  | none => ([], none)

/-- Delivery of an inbound error to a transport's `onerror` slot. -/
def invokeOnError (t : TransportObj M E B R) (e : E) : List (Action M E B) × Option R :=
  match t.onerror with
  | some f => f e
  | none => ([], none)

/-- Delivery of the inbound close notification to a transport's `onclose` slot. -/
def invokeOnClose (t : TransportObj M E B R) : List (Action M E B) × Option R :=
  match t.onclose with
  | some f => f
  | none => ([], none)

/-- A concrete transport used as an input below: base effect `7` on send,
no handlers installed. -/
def sampleTransport : TransportObj Nat Nat Nat Nat :=
  { oid := 0
    close := ([], 0)
    onclose := none
    onerror := none
    onmessage := none
    send := fun m => ([Action.base 7], m)
    start := ([], 0) }

/-- C4 (counterexample): `tapTransport` does not return a distinct transport
leaving the input's methods unmodified — it returns the very same object (same
identity) and its `send` slot now behaves differently (the tap event is
emitted), i.e. the methods were overwritten in place. -/
theorem tapTransport_same_object_counterexample :
    (tapTransport sampleTransport).oid = sampleTransport.oid ∧
    (tapTransport sampleTransport).send 0 ≠ sampleTransport.send 0 := by
  exact ⟨rfl, by decide⟩

/-- C4 (amended): `tapTransport` instruments the given transport in place: it
returns the same object (identity preserved), after the call every handler slot
is occupied (even those that were unset), and every operation's behavior has
changed — each call now additionally emits its tap event, so no slot of the
object is left unmodified. -/
theorem tapTransport_overwrites_in_place (t : TransportObj M E B R) :
    (tapTransport t).oid = t.oid ∧
    ((tapTransport t).onclose).isSome = true ∧
    ((tapTransport t).onerror).isSome = true ∧
    ((tapTransport t).onmessage).isSome = true ∧
    (∀ m, (tapTransport t).send m ≠ t.send m) ∧
    (tapTransport t).close ≠ t.close ∧
    (tapTransport t).start ≠ t.start := by
  refine ⟨rfl, rfl, rfl, rfl, ?_, ?_, ?_⟩
  · intro m h
    have hl := congrArg (fun p => p.1.length) h
    simp [tapTransport] at hl
  · intro h
    have hl := congrArg (fun p => p.1.length) h
    simp [tapTransport] at hl
  · intro h
    have hl := congrArg (fun p => p.1.length) h
    simp [tapTransport] at hl

/-- C5: the tapped transport delegates every operation to the original with the
identical payload and returns the original's result unchanged; erasing the tap
events from any operation's trace yields exactly the original operation's base
effects in the same order (nothing swallowed, reordered, or altered), and each
invocation contributes exactly one new side-channel event, emitted before the
delegated call, carrying the identical payload. -/
theorem tapTransport_delegates (t : TransportObj M E B R) :
    (∀ m, ((tapTransport t).send m).2 = (t.send m).2
      ∧ baseActions ((tapTransport t).send m).1 = baseActions (t.send m).1
      ∧ tapEvents ((tapTransport t).send m).1
          = TransportEvent.send m :: tapEvents (t.send m).1) ∧
    (((tapTransport t).start).2 = (t.start).2
      ∧ baseActions ((tapTransport t).start).1 = baseActions (t.start).1
      ∧ tapEvents ((tapTransport t).start).1
          = TransportEvent.start :: tapEvents (t.start).1) ∧
    (((tapTransport t).close).2 = (t.close).2
      ∧ baseActions ((tapTransport t).close).1 = baseActions (t.close).1
      ∧ tapEvents ((tapTransport t).close).1
          = TransportEvent.close :: tapEvents (t.close).1) ∧
    (∀ m, (invokeOnMessage (tapTransport t) m).2 = (invokeOnMessage t m).2
      ∧ baseActions (invokeOnMessage (tapTransport t) m).1
          = baseActions (invokeOnMessage t m).1
      ∧ tapEvents (invokeOnMessage (tapTransport t) m).1
          = TransportEvent.onmessage m :: tapEvents (invokeOnMessage t m).1) ∧
    (∀ e, (invokeOnError (tapTransport t) e).2 = (invokeOnError t e).2
      ∧ baseActions (invokeOnError (tapTransport t) e).1
          = baseActions (invokeOnError t e).1
      ∧ tapEvents (invokeOnError (tapTransport t) e).1
          = TransportEvent.onerror e :: tapEvents (invokeOnError t e).1) ∧
    ((invokeOnClose (tapTransport t)).2 = (invokeOnClose t).2
      ∧ baseActions (invokeOnClose (tapTransport t)).1
          = baseActions (invokeOnClose t).1
      ∧ tapEvents (invokeOnClose (tapTransport t)).1
          = TransportEvent.onclose :: tapEvents (invokeOnClose t).1) := by
  refine ⟨fun m => ⟨rfl, rfl, rfl⟩, ⟨rfl, rfl, rfl⟩, ⟨rfl, rfl, rfl⟩, ?_, ?_, ?_⟩
  · intro m
    cases h : t.onmessage with
    | none => simp [invokeOnMessage, tapTransport, h, baseActions, tapEvents]
    | some f => simp [invokeOnMessage, tapTransport, h, baseActions, tapEvents]
  · intro e
    cases h : t.onerror with
    | none => simp [invokeOnError, tapTransport, h, baseActions, tapEvents]
    | some f => simp [invokeOnError, tapTransport, h, baseActions, tapEvents]
  · cases h : t.onclose with
    | none => simp [invokeOnClose, tapTransport, h, baseActions, tapEvents]
    | some f => simp [invokeOnClose, tapTransport, h, baseActions, tapEvents]

/-! ## `proxyServer` (`src/MCPProxy.ts`, lines 108–166) -/

/-- The downstream handlers that `proxyServer` can register, named after the
request/notification schemas of the source. -/
inductive ProxyMethod where
  | loggingNotification
  | getPrompt
  | listPrompts
  | listResources
  | listResourceTemplates
  | readResource
  | callTool
  | listTools
  | complete
  deriving DecidableEq

/-- The capability snapshot `serverCapabilities`: presence (truthiness) of each
method-group capability object. -/
structure ServerCapabilities where
  logging : Bool
  prompts : Bool
  resources : Bool
  tools : Bool
  deriving DecidableEq

/-- `proxyServer` (`src/MCPProxy.ts`, lines 108–166) as the ordered list of
handler registrations it performs: logging, prompts, resources and tools blocks
are guarded by the capability snapshot; the completion handler is registered
unconditionally at the end. (Each registered handler forwards the call to the
matching upstream client method and returns its result; only the registration
set is modelled here.) -/
def proxyServerRegistrations (caps : ServerCapabilities) : List ProxyMethod :=
  (if caps.logging then [ProxyMethod.loggingNotification] else []) ++
  (if caps.prompts then [ProxyMethod.getPrompt, ProxyMethod.listPrompts] else []) ++
  (if caps.resources then
      [ProxyMethod.listResources, ProxyMethod.listResourceTemplates, ProxyMethod.readResource]
    else []) ++
  (if caps.tools then [ProxyMethod.callTool, ProxyMethod.listTools] else []) ++
  [ProxyMethod.complete]

/-- C6: the completion handler is registered for every capability snapshot, and
each of the logging, prompts, resources and tools handlers is registered iff the
corresponding capability is present in the snapshot. -/
theorem proxyServer_capability_gating (caps : ServerCapabilities) :
    ProxyMethod.complete ∈ proxyServerRegistrations caps ∧
    (ProxyMethod.loggingNotification ∈ proxyServerRegistrations caps ↔ caps.logging) ∧
    (ProxyMethod.getPrompt ∈ proxyServerRegistrations caps ↔ caps.prompts) ∧
    (ProxyMethod.listPrompts ∈ proxyServerRegistrations caps ↔ caps.prompts) ∧
    (ProxyMethod.listResources ∈ proxyServerRegistrations caps ↔ caps.resources) ∧
    (ProxyMethod.listResourceTemplates ∈ proxyServerRegistrations caps ↔ caps.resources) ∧
    (ProxyMethod.readResource ∈ proxyServerRegistrations caps ↔ caps.resources) ∧
    (ProxyMethod.callTool ∈ proxyServerRegistrations caps ↔ caps.tools) ∧
    (ProxyMethod.listTools ∈ proxyServerRegistrations caps ↔ caps.tools) := by
  rcases caps with ⟨l, p, r, t⟩
  cases l <;> cases p <;> cases r <;> cases t <;> decide

/-! ## The `startSSEServer` request handler (`src/MCPProxy.ts`, lines 177–307) -/

/-- Result of `new URL(s)` for the URLs this development needs. Modelled from
the WHATWG URL parser (a platform builtin), restricted to absolute URLs of
shape `scheme://host[:port][/...]`: the scheme must be non-empty and
alphabetic, the host non-empty; scheme and host are lowercased on parsing.
Strings without `://` — notably the opaque-origin value `null` that browsers
send — fail to parse, which in the source throws and is caught. -/
structure ParsedURL where
  scheme : String
  host : String
  port : Option Nat
  deriving DecidableEq

/-- `sep` is a prefix of `xs` (character lists). -/
def charsStartWith : List Char → List Char → Bool
  | [], _ => true
  | _ :: _, [] => false
  | a :: as, b :: bs => a == b && charsStartWith as bs

/-- Split `xs` at the first occurrence of the (non-empty) separator `sep`:
`some (before, after)`, or `none` when `sep` does not occur. -/
def breakOnSub (sep : List Char) : List Char → Option (List Char × List Char)
  | [] => none
  | c :: cs =>
    if charsStartWith sep (c :: cs) then some ([], (c :: cs).drop sep.length)
    else
      match breakOnSub sep cs with
      | some (pre, post) => some (c :: pre, post)
      | none => none

/-- Split a character list on a separator character. -/
def splitOnChar (sep : Char) : List Char → List (List Char)
  | [] => [[]]
  | c :: cs =>
    if c == sep then [] :: splitOnChar sep cs
    else
      match splitOnChar sep cs with
      | [] => [[c]]
      | g :: gs => (c :: g) :: gs

/-- Decimal digits to a number; `none` when empty or not all digits. -/
def charsToNat : List Char → Option Nat
  | [] => none
  | cs =>
    if cs.all Char.isDigit then
      some (cs.foldl (fun n c => n * 10 + (c.toNat - 48)) 0)
    else none

/-- The parsing function of the `ParsedURL` model: splits at `://`, takes the
authority up to the first `/`, splits off an optional numeric port. -/
def parseURL (s : String) : Option ParsedURL :=
  match breakOnSub "://".toList s.toList with
  | none => none
  | some (schemeChars, restChars) =>
    if schemeChars.isEmpty || !(schemeChars.all Char.isAlpha) then none
    else
      let authority := restChars.takeWhile (fun c => c ≠ '/')
      if authority.isEmpty then none
      else
        match splitOnChar ':' authority with
        | [h] => some
            { scheme := String.mk (schemeChars.map Char.toLower)
              host := String.mk (h.map Char.toLower)
              port := none }
        | [h, portChars] =>
          if h.isEmpty then none
          else
            match charsToNat portChars with
            | some p => some
                { scheme := String.mk (schemeChars.map Char.toLower)
                  host := String.mk (h.map Char.toLower)
                  port := some p }
            | none => none
        | _ => none

/-- Default port of a scheme, used by the origin serialization. -/
def defaultPort (scheme : String) : Option Nat :=
  if scheme = "http" then some 80
  else if scheme = "https" then some 443
  else if scheme = "ws" then some 80
  else if scheme = "wss" then some 443
  else if scheme = "ftp" then some 21
  else none

/-- `URL#origin` serialization: `scheme://host`, with the port appended when
present and not the scheme's default. -/
def ParsedURL.origin (u : ParsedURL) : String :=
  u.scheme ++ "://" ++ u.host ++
    (match u.port with
     | none => ""
     | some p => if defaultPort u.scheme = some p then "" else ":" ++ toString p)

/-- The parts of an incoming Node request that the `startSSEServer` handler
inspects: method, URL, and the `Origin` header. -/
structure HttpRequest where
  method : String
  url : String
  origin : Option String
  deriving DecidableEq

/-- Lines 196–207 of `src/MCPProxy.ts`: when the request carries an `Origin`
header and `new URL(origin)` succeeds, four CORS headers are set on the
response, the allow-origin one echoing `origin.origin`; a parse failure is
caught (logged) and no CORS header is set. -/
def corsHeaders (origin : Option String) : List (String × String) :=
  match origin with
  | none => []
  | some o =>
    match parseURL o with
    | none => []
    | some u =>
      [("Access-Control-Allow-Origin", u.origin),
       ("Access-Control-Allow-Credentials", "true"),
       ("Access-Control-Allow-Methods", "GET, POST, OPTIONS"),
       ("Access-Control-Allow-Headers", "*")]

/-- The routing outcome of one request, one constructor per terminal branch of
the handler (`src/MCPProxy.ts`, lines 209–279). -/
inductive RouteOutcome where
  | noContent
  | ping
  | sseConnect
  | missingSessionId
  | unknownSession (sid : String)
  | postToSession (sid : String)
  | notFound
  deriving DecidableEq

/-- `searchParams.get("sessionId")` on the request URL: the value of the first
`sessionId` pair of the query string, `none` when absent. -/
def getSessionIdParam (url : String) : Option String :=
  match url.splitOn "?" with
  | _ :: query :: _ =>
    (query.splitOn "&").findSome? (fun kv =>
      match kv.splitOn "=" with
      | [k, v] => if k = "sessionId" then some v else none
      | [k] => if k = "sessionId" then some "" else none
      | _ => none)
  | _ => none

/-- The routing branches of the request handler in source order (`src/MCPProxy.ts`,
lines 209–279): OPTIONS → 204; GET `/ping` → 200 `pong`; GET on the SSE endpoint
→ create a session and stream; POST on `/messages…` → deliver to the session
named by the `sessionId` query parameter (missing/empty → 400, unknown → 400);
otherwise 404. `sessions` is the key set of `activeTransports`. -/
def routeRequest (endpoint : String) (sessions : List String) (req : HttpRequest) :
    RouteOutcome :=
  if req.method = "OPTIONS" then RouteOutcome.noContent
  else if req.method = "GET" ∧ req.url = "/ping" then RouteOutcome.ping
  else if req.method = "GET" ∧ req.url = endpoint then RouteOutcome.sseConnect
  else if req.method = "POST" ∧ req.url.startsWith "/messages" then
    match getSessionIdParam req.url with
    | none => RouteOutcome.missingSessionId
    | some sid =>
      if sid = "" then RouteOutcome.missingSessionId
      else if sessions.contains sid then RouteOutcome.postToSession sid
      else RouteOutcome.unknownSession sid
  else RouteOutcome.notFound

/-- The `http.createServer` request handler of `startSSEServer`: the CORS
headers are set on the response before any routing branch runs, so every
response of every branch carries them. -/
def handleRequest (endpoint : String) (sessions : List String) (req : HttpRequest) :
    List (String × String) × RouteOutcome :=
  (corsHeaders req.origin, routeRequest endpoint sessions req)

/-- C3 (counterexample): a request carrying `Origin: null` (the opaque-origin
value browsers send) gets a response with no allow-origin header at all —
`new URL("null")` throws, the catch swallows it, and no CORS header is set —
while the claim requires the header to equal `null` exactly. -/
theorem cors_null_origin_counterexample :
    ((handleRequest "/sse" []
        { method := "GET", url := "/ping", origin := some "null" }).1.find?
        (fun p => p.1 = "Access-Control-Allow-Origin")) = none ∧
    ({ method := "GET", url := "/ping", origin := some "null" } : HttpRequest).origin
      = some "null" := by
  decide

/-- C3 (amended): whenever the request's `Origin` header parses as a URL, every
response — uniformly across all routing branches, error responses included —
carries the allow-origin header set to the parsed origin's serialization (which
is the URL's normalized origin, never the wildcard), allows credentials, and
lists the accepted methods and headers; an Origin value that does not parse
yields no CORS headers. -/
theorem cors_uniform_echoes_parsed_origin (endpoint : String) (sessions : List String)
    (req : HttpRequest) (o : String) (u : ParsedURL)
    (ho : req.origin = some o) (hu : parseURL o = some u) :
    (handleRequest endpoint sessions req).1 =
      [("Access-Control-Allow-Origin", u.origin),
       ("Access-Control-Allow-Credentials", "true"),
       ("Access-Control-Allow-Methods", "GET, POST, OPTIONS"),
       ("Access-Control-Allow-Headers", "*")] ∧
    u.origin ≠ "*" := by
  constructor
  · show corsHeaders req.origin = _
    rw [ho]
    simp [corsHeaders, hu]
  · intro h
    have hl := congrArg String.length h
    have h3 : ("://" : String).length = 3 := rfl
    have h1 : ("*" : String).length = 1 := rfl
    simp only [ParsedURL.origin, String.length_append] at hl
    omega

/-- Witness for C3 (amended): `Origin: https://a.example` is echoed exactly on a
404 (error) response. -/
theorem cors_uniform_echoes_parsed_origin_witness :
    (handleRequest "/sse" []
        { method := "GET", url := "/nowhere", origin := some "https://a.example" }).1 =
      [("Access-Control-Allow-Origin",
          ParsedURL.origin { scheme := "https", host := "a.example", port := none }),
       ("Access-Control-Allow-Credentials", "true"),
       ("Access-Control-Allow-Methods", "GET, POST, OPTIONS"),
       ("Access-Control-Allow-Headers", "*")] ∧
    ParsedURL.origin { scheme := "https", host := "a.example", port := none } ≠ "*" :=
  cors_uniform_echoes_parsed_origin "/sse" [] _ "https://a.example"
    { scheme := "https", host := "a.example", port := none } rfl (by decide)

/-! ## Session teardown of the legacy streaming family (`src/MCPProxy.ts`,
lines 238–248) -/

/-- The steps of the `res.on("close")` callback registered for every
legacy-streaming session, in execution order: `await server.close()` inside
try/catch (a failure is logged and does not stop teardown), removal of the
session's transport from `activeTransports`, then the optional `onClose`
callback. -/
inductive TeardownStep where
  | closeEndpoint
  | logCloseError
  | removeSession (sid : String)
  | invokeOnCloseCb
  deriving DecidableEq

/-- The trace of one run of the `res.on("close")` callback
(`src/MCPProxy.ts`, lines 238–248). -/
def resCloseSteps (closeThrows : Bool) (sid : String) (onCloseProvided : Bool) :
    List TeardownStep :=
  ([TeardownStep.closeEndpoint] ++
    (if closeThrows then [TeardownStep.logCloseError] else [])) ++
  [TeardownStep.removeSession sid] ++
  (if onCloseProvided then [TeardownStep.invokeOnCloseCb] else [])

/-- C7: in every run of the teardown callback (whether or not closing the
downstream endpoint failed), the `onClose` callback — when provided — runs
exactly once, strictly after the downstream endpoint has been closed and after
the session was removed from the registry. -/
theorem onClose_once_after_close_and_removal (closeThrows : Bool) (sid : String)
    (onCloseProvided : Bool) (hp : onCloseProvided = true) :
    ∃ pre, resCloseSteps closeThrows sid onCloseProvided
        = pre ++ [TeardownStep.removeSession sid, TeardownStep.invokeOnCloseCb] ∧
      TeardownStep.closeEndpoint ∈ pre ∧
      TeardownStep.invokeOnCloseCb ∉ pre ∧
      (resCloseSteps closeThrows sid onCloseProvided).count TeardownStep.invokeOnCloseCb
        = 1 := by
  subst hp
  cases closeThrows with
  | false =>
    refine ⟨[TeardownStep.closeEndpoint], ?_, ?_, ?_, ?_⟩ <;>
      simp [resCloseSteps, List.count_append, List.count_cons]
  | true =>
    refine ⟨[TeardownStep.closeEndpoint, TeardownStep.logCloseError], ?_, ?_, ?_, ?_⟩ <;>
      simp [resCloseSteps, List.count_append, List.count_cons]

/-- Witness for C7 at a concrete session id, both with and without a failing
endpoint close. -/
theorem onClose_once_after_close_and_removal_witness :
    ∃ pre, resCloseSteps true "session-1" true
        = pre ++ [TeardownStep.removeSession "session-1", TeardownStep.invokeOnCloseCb] ∧
      TeardownStep.closeEndpoint ∈ pre ∧
      TeardownStep.invokeOnCloseCb ∉ pre ∧
      (resCloseSteps true "session-1" true).count TeardownStep.invokeOnCloseCb = 1 :=
  onClose_once_after_close_and_removal true "session-1" true rfl

/-! ## The resumable `EventLog` (spec §4.4) -/

/-- Modelled from the spec: the in-memory resumable `EventLog` (spec §4.4) —
its implementation file is not among the provided sources. Per-stream
append-ordered lists of `(eventId, payload)` pairs, ids monotonically
increasing from 1 per stream. -/
structure EventLog (M : Type) where
  streams : List (String × List (Nat × M))

/-- The stored event list of one stream, `none` for an unknown stream id. -/
def EventLog.streamEvents (log : EventLog M) (streamId : String) :
    Option (List (Nat × M)) :=
  (log.streams.find? (fun p => p.1 = streamId)).map Prod.snd

/-- Modelled from the spec: `append(streamId, message) → eventId` assigns the
next integer for that stream (starting at 1), stores the event at the end of
the stream, and returns the id. -/
def EventLog.append (log : EventLog M) (streamId : String) (message : M) :
    EventLog M × Nat :=
  match log.streamEvents streamId with
  | none => ({ streams := log.streams ++ [(streamId, [(1, message)])] }, 1)
  | some evs =>
    ({ streams := log.streams.map (fun p =>
        if p.1 = streamId then (p.1, p.2 ++ [(evs.length + 1, message)]) else p) },
      evs.length + 1)

/-- Modelled from the spec: `replay(streamId, afterEventId, deliver)` invokes
`deliver` on the stored events of the stream with id greater than
`afterEventId`, in stored order; an unknown stream yields no deliveries. The
returned list is the sequence of deliveries. -/
def EventLog.replay (log : EventLog M) (streamId : String) (afterEventId : Nat) :
    List (Nat × M) :=
  match log.streamEvents streamId with
  | none => []
  | some evs => evs.filter (fun e => afterEventId < e.1)

/-- The per-stream ordering invariant (spec §3, `StreamEvent`): event ids
strictly increase along each stored stream. -/
def EventLog.WF (log : EventLog M) : Prop :=
  ∀ p ∈ log.streams, p.2.Pairwise (fun a b => a.1 < b.1)

/-- Helper: the stream located by `streamEvents` is one of the stored streams,
so the well-formedness invariant applies to it. -/
theorem EventLog.streamEvents_mem {log : EventLog M} {streamId : String}
    {evs : List (Nat × M)} (h : log.streamEvents streamId = some evs) :
    (streamId, evs) ∈ log.streams := by
  unfold EventLog.streamEvents at h
  cases hf : log.streams.find? (fun p => p.1 = streamId) with
  | none => rw [hf] at h; simp at h
  | some q =>
    rw [hf] at h
    simp at h
    have hq := List.find?_some hf
    have hmem := List.mem_of_find?_eq_some hf
    simp at hq
    rcases q with ⟨a, b⟩
    subst hq
    subst h
    exact hmem

/-- C8: for every well-formed log, `replay` delivers exactly the stored events
of the stream with id strictly greater than `afterEventId`; the deliveries are
a sublist of the stored stream (append order preserved) with strictly
increasing ids; an unknown stream id yields zero deliveries (and no error). -/
theorem replay_exactly_after (log : EventLog M) (hwf : log.WF) (streamId : String)
    (afterEventId : Nat) :
    (∀ e, e ∈ log.replay streamId afterEventId ↔
        (∃ evs, log.streamEvents streamId = some evs ∧ e ∈ evs ∧ afterEventId < e.1)) ∧
    (log.replay streamId afterEventId).Pairwise (fun a b => a.1 < b.1) ∧
    (log.streamEvents streamId = none → log.replay streamId afterEventId = []) ∧
    (∀ evs, log.streamEvents streamId = some evs →
      (log.replay streamId afterEventId).Sublist evs) := by
  refine ⟨?_, ?_, ?_, ?_⟩
  · intro e
    unfold EventLog.replay
    cases h : log.streamEvents streamId with
    | none => simp
    | some evs => simp [List.mem_filter]
  · unfold EventLog.replay
    cases h : log.streamEvents streamId with
    | none => simp
    | some evs =>
      have := hwf _ (EventLog.streamEvents_mem h)
      exact this.sublist (List.filter_sublist evs)
  · intro h
    unfold EventLog.replay
    rw [h]
  · intro evs h
    unfold EventLog.replay
    rw [h]
    exact List.filter_sublist evs

/-- Witness for C8 at a concrete three-event stream and position 1: events 2
and 3 are delivered in order; the unknown stream conjunct is available at any
other id. -/
theorem replay_exactly_after_witness :
    (∀ e, e ∈ EventLog.replay ⟨[("s", [(1, 10), (2, 20), (3, 30)])]⟩ "s" 1 ↔
        (∃ evs, EventLog.streamEvents ⟨[("s", [(1, 10), (2, 20), (3, 30)])]⟩ "s"
            = some evs ∧ e ∈ evs ∧ 1 < e.1)) ∧
    (EventLog.replay (M := Nat) ⟨[("s", [(1, 10), (2, 20), (3, 30)])]⟩ "s" 1).Pairwise
      (fun a b => a.1 < b.1) ∧
    (EventLog.streamEvents (M := Nat) ⟨[("s", [(1, 10), (2, 20), (3, 30)])]⟩ "s" = none →
      EventLog.replay ⟨[("s", [(1, 10), (2, 20), (3, 30)])]⟩ "s" 1 = []) ∧
    (∀ evs, EventLog.streamEvents ⟨[("s", [(1, 10), (2, 20), (3, 30)])]⟩ "s" = some evs →
      (EventLog.replay ⟨[("s", [(1, 10), (2, 20), (3, 30)])]⟩ "s" 1).Sublist evs) :=
  replay_exactly_after ⟨[("s", [(1, 10), (2, 20), (3, 30)])]⟩
    (by
      intro p hp
      simp at hp
      subst hp
      decide)
    "s" 1

end Spec2Proof
